import Mathlib

/-!
Shallow embedding of the domain reputation classification engine in
src/osxcollector/output_filters/opendns/lookup_domains.py (class LookupDomainsFilter).

Modelling conventions:
- Python dicts with a known set of possible keys become structures whose fields are
  Option-valued: `none` models an absent key.  The raw security response may carry
  arbitrary further provider fields; these are modelled by the `extra` field, which
  the trim step drops.
- Python truthiness of the bad-indicator values (strings; absent modelled as none) is
  pyTruthyStr: absent and the empty string are falsy, a non-empty string is truthy.
- The provider client collaborators are modelled as functions from domain to result;
  the mapping returned by a lookup call has exactly the requested domains as keys
  (the source assumes the client answers every requested domain), so iteration over
  the result keys is iteration over the request list.
- Machine integers: the scores are small signed integers, modelled as Int (no
  overflow is possible in the source paths modelled here).
-/

/-- Mirrors the SecurityCheck namedtuple (line 31): a named numeric signal with its
valid range and suspicion threshold. -/
structure SecurityCheck where
  key : String
  min : Int
  max : Int
  threshold : Int
deriving DecidableEq

/-- The fixed table SECURITY_CHECKS (lines 32-58). -/
def SECURITY_CHECKS : List SecurityCheck :=
  [ SecurityCheck.mk "dga_score" (-100) 0 (-70),
    SecurityCheck.mk "securerank2" (-100) 100 (-10),
    SecurityCheck.mk "asn_score" (-100) 0 (-3),
    SecurityCheck.mk "prefix_score" (-100) 0 (-12),
    SecurityCheck.mk "rip_score" (-100) 0 (-25) ]

/-- The fixed list SECURITY_BAD_KEYS (lines 60-68). -/
def SECURITY_BAD_KEYS : List String := ["attack", "threat_type"]

/-- The fixed list SUSPICIOUS_CATEGORIES (lines 20-29). -/
def SUSPICIOUS_CATEGORIES : List String :=
  [ "Adware",
    "Botnet",
    "Typo Squatting",
    "Drive-by Downloads/Exploits",
    "Mobile Threats",
    "High Risk Sites and Locations",
    "Malware",
    "Phishing" ]

/-- A categorization result dict: keys status, content_categories, security_categories
from the provider, plus the suspicious key attached by the orchestrator (absent until
attached, hence Option). -/
structure CategoryInfo where
  status : Int
  content_categories : List String
  security_categories : List String
  suspicious : Option Bool
deriving DecidableEq

/-- A security result dict.  Each named key is Option-valued (none models an absent
key).  The suspicious key is attached by the orchestrator.  `extra` models any other
raw provider fields, which the trim step drops (values are immaterial to all logic,
typed Int for concreteness). -/
structure SecurityInfo where
  dga_score : Option Int
  securerank2 : Option Int
  asn_score : Option Int
  prefix_score : Option Int
  rip_score : Option Int
  attack : Option String
  threat_type : Option String
  found : Option Bool
  suspicious : Option Bool
  extra : List (String × Int)
deriving DecidableEq

/-- Dict read security_info.get(key) for the five score keys of SECURITY_CHECKS. -/
def getScore (info : SecurityInfo) (key : String) : Option Int :=
  if key == "dga_score" then info.dga_score
  else if key == "securerank2" then info.securerank2
  else if key == "asn_score" then info.asn_score
  else if key == "prefix_score" then info.prefix_score
  else if key == "rip_score" then info.rip_score
  else none

/-- Dict read security_info.get(key) for the two keys of SECURITY_BAD_KEYS. -/
def getBadKey (info : SecurityInfo) (key : String) : Option String :=
  if key == "attack" then info.attack
  else if key == "threat_type" then info.threat_type
  else none

/-- Python truthiness of security_info.get(key, None) for a bad-indicator value:
None and the empty string are falsy, any non-empty string is truthy. -/
def pyTruthyStr : Option String → Bool
  | none => false
  | some s => s != ""

/-- Mirrors _is_category_info_suspicious (lines 120-132):
-1 == status or len(security_categories) or
any(cat in SUSPICIOUS_CATEGORIES for cat in content_categories). -/
def isCategoryInfoSuspicious (category_info : CategoryInfo) : Bool :=
  decide (category_info.status = -1)
  || category_info.security_categories.length != 0
  || category_info.content_categories.any (fun cat => decide (cat ∈ SUSPICIOUS_CATEGORIES))

/-- Mirrors _should_get_security_info (lines 134-150).  The domain argument is unused
in the source body as well. -/
def shouldGetSecurityInfo (_domain : String) (category_info : CategoryInfo) : Bool :=
  isCategoryInfoSuspicious category_info
  || (decide (category_info.status = 0)
      && category_info.content_categories.length == 0
      && category_info.security_categories.length == 0)

/-- One iteration of the loop in _is_security_info_suspicious (lines 167-169):
security_info.get(check.key, check.max) <= check.threshold. -/
def scoreCheckFails (info : SecurityInfo) (check : SecurityCheck) : Bool :=
  decide ((getScore info check.key).getD check.max ≤ check.threshold)

/-- Mirrors _is_security_info_suspicious (lines 152-174).  The source body is a chain
of early returns: bad-indicator truthiness, then the score loop, then the found
check; that chain returning True on the first satisfied condition and False at the
end is exactly this Bool disjunction. -/
def isSecurityInfoSuspicious (security_info : SecurityInfo) : Bool :=
  SECURITY_BAD_KEYS.any (fun key => pyTruthyStr (getBadKey security_info key))
  || SECURITY_CHECKS.any (fun check => scoreCheckFails security_info check)
  || !(security_info.found.getD false)

/-- Mirrors _should_store_ioc_info (lines 176-185):
category_info["suspicious"] or security_info["suspicious"].  At its only call site
both suspicious keys have just been attached, so the keys are always present; the
getD default models the (never exercised) missing-key case. -/
def shouldStoreIocInfo (category_info : CategoryInfo) (security_info : SecurityInfo) : Bool :=
  category_info.suspicious.getD false || security_info.suspicious.getD false

/-- Mirrors _trim_security_result (lines 187-211).  Step 1 fixes the sign of a
present positive dga_score (security_info.get("dga_score", 0); if positive, store
-1 * dga_score back).  Step 2 copies only the SECURITY_CHECKS keys present, the
SECURITY_BAD_KEYS keys present, and found (defaulting to False); every other key of
the raw dict (the suspicious key and the extra provider fields) is dropped. -/
def trimSecurityResult (security_info : SecurityInfo) : SecurityInfo :=
  let dga_score := security_info.dga_score.getD 0
  let fixed :=
    if dga_score > 0 then { security_info with dga_score := some (-1 * dga_score) }
    else security_info
  { dga_score := fixed.dga_score,
    securerank2 := fixed.securerank2,
    asn_score := fixed.asn_score,
    prefix_score := fixed.prefix_score,
    rip_score := fixed.rip_score,
    attack := fixed.attack,
    threat_type := fixed.threat_type,
    found := some (fixed.found.getD false),
    suspicious := none,
    extra := [] }

/-- Mirrors the link construction (line 115):
"https://investigate.opendns.com/domain-view/name/{0}/view".format(domain.encode("utf-8", errors="ignore")).
The Python encode call yields the UTF-8 bytes of the domain, which the format call
embeds verbatim into the template; no URL quoting of any kind is applied.  At the
string level the embedded byte sequence is the domain itself. -/
def opendnsLink (domain : String) : String :=
  "https://investigate.opendns.com/domain-view/name/" ++ domain ++ "/view"

/-- An uppercase hex digit for n < 16. -/
def hexDigit (n : Nat) : Char :=
  if n < 10 then Char.ofNat (48 + n) else Char.ofNat (55 + n)

/-- Modelled from the spec: one character of percent-safe-encoding for URL embedding
(section 6).  Characters in the standard URL-safe set (letters, digits, and the
characters underscore, dot, hyphen, tilde and slash) pass through; any other
character is replaced by a percent sign followed by its two-digit uppercase hex code
(stated for the ASCII range, which covers the counterexample domain). -/
def percentEncodeChar (c : Char) : String :=
  if c.isAlphanum || c == '_' || c == '.' || c == '-' || c == '~' || c == '/'
  then String.singleton c
  else String.mk ['%', hexDigit (c.toNat / 16 % 16), hexDigit (c.toNat % 16)]

/-- Modelled from the spec: percent-safe-encoding of a whole domain string. -/
def percentEncode (s : String) : String :=
  String.join (s.toList.map percentEncodeChar)

/-- Modelled from the spec: the link format of section 6,
https://investigate.opendns.com/domain-view/name/{domain}/view with the domain
percent-safe-encoded. -/
def specThreatLink (domain : String) : String :=
  "https://investigate.opendns.com/domain-view/name/" ++ percentEncode domain ++ "/view"

/-- Attaching the suspicious key to a categorization result (lines 98-99):
categorized[domain]["suspicious"] = self._is_category_info_suspicious(categorized[domain]). -/
def attachCategorySuspicious (catOf : String → CategoryInfo) (domain : String) : CategoryInfo :=
  let c := catOf domain
  { c with suspicious := some (isCategoryInfoSuspicious c) }

/-- Attaching the suspicious key to a security result (lines 106-107). -/
def attachSecuritySuspicious (secOf : String → SecurityInfo) (domain : String) : SecurityInfo :=
  let s := secOf domain
  { s with suspicious := some (isSecurityInfoSuspicious s) }

/-- The argument of the categorization call (line 93):
filter(lambda x: not self._whitelist.match_values(x), all_iocs). -/
def stage1Iocs (whitelist : String → Bool) (all_iocs : List String) : List String :=
  all_iocs.filter (fun x => !(whitelist x))

/-- The argument of the security call (line 102): the categorized keys passing
_should_get_security_info, where each categorization already carries its attached
suspicious key. -/
def stage2Iocs (whitelist : String → Bool) (catOf : String → CategoryInfo)
    (all_iocs : List String) : List String :=
  (stage1Iocs whitelist all_iocs).filter
    (fun domain => shouldGetSecurityInfo domain (attachCategorySuspicious catOf domain))

/-- The per-domain output record built at lines 111-116. -/
structure ThreatRecord where
  domain : String
  categorization : CategoryInfo
  security : SecurityInfo
  link : String
deriving DecidableEq

/-- Mirrors _lookup_iocs (lines 75-118).  whitelist is the collaborator method
match_values; catOf and secOf are the provider client lookups, modelled as the
per-domain value functions of the mappings they return (whose key sets are exactly
the requested domains).  The returned mapping threat_info is modelled as the
association list of its entries, built in request order. -/
def lookupIocs (whitelist : String → Bool) (catOf : String → CategoryInfo)
    (secOf : String → SecurityInfo) (all_iocs : List String) :
    List (String × ThreatRecord) :=
  let securityKeys := stage2Iocs whitelist catOf all_iocs
  (securityKeys.filter
      (fun domain =>
        shouldStoreIocInfo (attachCategorySuspicious catOf domain)
          (attachSecuritySuspicious secOf domain))).map
    (fun domain =>
      (domain,
        { domain := domain,
          categorization := attachCategorySuspicious catOf domain,
          security := trimSecurityResult (attachSecuritySuspicious secOf domain),
          link := opendnsLink domain }))

/-- Example whitelist collaborator that matches nothing. -/
def exWhitelistNone : String → Bool := fun _ => false

/-- Example categorization lookup: every domain uncategorized (status -1), which is
suspicious per the categorization classifier. -/
def exCatOf : String → CategoryInfo :=
  fun _ => { status := -1, content_categories := [], security_categories := [],
             suspicious := none }

/-- Example security lookup: a raw result with a wrongly positive dga_score of +80,
no other scores, no bad indicators, and found true. -/
def exSecOf : String → SecurityInfo :=
  fun _ => { dga_score := some 80, securerank2 := none, asn_score := none,
             prefix_score := none, rip_score := none, attack := none,
             threat_type := none, found := some true, suspicious := none, extra := [] }

/-- The record lookupIocs emits for a domain d under exWhitelistNone, exCatOf and
exSecOf: categorization attached suspicious true, security trimmed with the sign of
dga_score corrected to -80 and the suspicious key dropped. -/
def exRecord (d : String) : ThreatRecord :=
  { domain := d,
    categorization := { status := -1, content_categories := [], security_categories := [],
                        suspicious := some true },
    security := { dga_score := some (-80), securerank2 := none, asn_score := none,
                  prefix_score := none, rip_score := none, attack := none,
                  threat_type := none, found := some true, suspicious := none,
                  extra := [] },
    link := "https://investigate.opendns.com/domain-view/name/" ++ d ++ "/view" }

/-- Example whitelist collaborator matching exactly the domain white.com. -/
def exWhitelistWhite : String → Bool := fun s => s == "white.com"

/-- Example security result whose dga_score sits exactly on the -70 threshold. -/
def exSecBoundary : SecurityInfo :=
  { dga_score := some (-70), securerank2 := none, asn_score := none,
    prefix_score := none, rip_score := none, attack := none,
    threat_type := none, found := some true, suspicious := none, extra := [] }

/-- Example security result with every optional key absent. -/
def exSecEmpty : SecurityInfo :=
  { dga_score := none, securerank2 := none, asn_score := none,
    prefix_score := none, rip_score := none, attack := none,
    threat_type := none, found := none, suspicious := none, extra := [] }

/-- The trimmed security record never carries a positive dga_score: the sign
correction in trimSecurityResult negates a positive value and leaves a
non-positive one alone. -/
theorem trim_dga_nonpos (info : SecurityInfo) (v : Int) :
    (trimSecurityResult info).dga_score = some v → v ≤ 0 := by
  rcases hd : info.dga_score with _ | w
  · simp [trimSecurityResult, hd]
  · by_cases hw : w > 0
    · simp [trimSecurityResult, hd, hw]
      omega
    · simp [trimSecurityResult, hd, hw]
      intro h
      omega

/-- C1: the security suspicion evaluation compares the raw, possibly mis-signed
dga_score against the -70 threshold, so a result with a positive dga_score, no
truthy bad indicator, every other score above its threshold and found true is
classified not suspicious, while the trimmed output carries the negated value,
which for a raw value of at least 70 lies at or below the -70 threshold. -/
theorem rawDgaScoreInSuspicionCheck (info : SecurityInfo) (v : Int)
    (hatt : pyTruthyStr info.attack = false)
    (hthr : pyTruthyStr info.threat_type = false)
    (hdga : info.dga_score = some v) (hpos : 0 < v)
    (hsr : (-10 : Int) < info.securerank2.getD 100)
    (hasn : (-3 : Int) < info.asn_score.getD 0)
    (hpre : (-12 : Int) < info.prefix_score.getD 0)
    (hrip : (-25 : Int) < info.rip_score.getD 0)
    (hfound : info.found = some true) :
    isSecurityInfoSuspicious info = false ∧
    (trimSecurityResult info).dga_score = some (-v) ∧
    (70 ≤ v → -v ≤ (-70 : Int)) := by
  refine ⟨?_, ?_, by omega⟩
  · simp only [isSecurityInfoSuspicious, SECURITY_BAD_KEYS, SECURITY_CHECKS,
      List.any_cons, List.any_nil, scoreCheckFails, getScore, getBadKey,
      hatt, hthr, hdga, hfound]
    simp
    exact ⟨⟨hatt, hthr⟩, by omega, hsr, hasn, hpre, hrip⟩
  · have hv : (0 : Int) < v := hpos
    simp [trimSecurityResult, hdga, hv]

/-- Witness for C1 at the concrete example result with raw dga_score +80. -/
theorem rawDgaScoreInSuspicionCheck_witness :
    isSecurityInfoSuspicious (exSecOf "evil.com") = false ∧
    (trimSecurityResult (exSecOf "evil.com")).dga_score = some (-(80 : Int)) ∧
    (70 ≤ (80 : Int) → -(80 : Int) ≤ (-70 : Int)) :=
  rawDgaScoreInSuspicionCheck (exSecOf "evil.com") 80 (by decide) (by decide) (by decide)
    (by decide) (by decide) (by decide) (by decide) (by decide) (by decide)

/-- C4: for each of the five SECURITY_CHECKS entries, a result whose named score
equals the threshold is marked suspicious (the boundary is inclusive), while a
score strictly above the threshold, or an absent score (defaulting to the entry
max), does not fail that check. -/
theorem thresholdBoundaryInclusive :
    ∀ check ∈ SECURITY_CHECKS, ∀ info : SecurityInfo,
      (getScore info check.key = some check.threshold →
        isSecurityInfoSuspicious info = true) ∧
      (∀ v : Int, getScore info check.key = some v → check.threshold < v →
        scoreCheckFails info check = false) ∧
      (getScore info check.key = none → scoreCheckFails info check = false) := by
  intro check hc info
  have hmax : check.threshold < check.max := by
    simp only [SECURITY_CHECKS, List.mem_cons, List.not_mem_nil, or_false] at hc
    rcases hc with h | h | h | h | h <;> subst h <;> decide
  refine ⟨?_, ?_, ?_⟩
  · intro hs
    have hfail : scoreCheckFails info check = true := by
      simp [scoreCheckFails, hs]
    have hany : SECURITY_CHECKS.any (fun c => scoreCheckFails info c) = true :=
      List.any_eq_true.mpr ⟨check, hc, hfail⟩
    simp [isSecurityInfoSuspicious, hany]
  · intro v hv hlt
    simp [scoreCheckFails, hv]
    omega
  · intro h
    simp [scoreCheckFails, h]
    omega

/-- Witness for C4 at the dga_score entry and a result whose dga_score sits
exactly on the -70 threshold. -/
theorem thresholdBoundaryInclusive_witness :
    isSecurityInfoSuspicious exSecBoundary = true :=
  (thresholdBoundaryInclusive (SecurityCheck.mk "dga_score" (-100) 0 (-70))
    (by decide) exSecBoundary).1 (by decide)

/-- C5: a truthy bad indicator (attack or threat_type present and non-empty) makes
the result suspicious regardless of every score; an absent score defaults to that
entry's benign max (and so does not fail the check); and a result whose found key
is false or absent is suspicious even with every score absent and no bad
indicator set. -/
theorem missingFieldsDefaultSuspicion :
    (∀ info : SecurityInfo,
       pyTruthyStr info.attack = true ∨ pyTruthyStr info.threat_type = true →
       isSecurityInfoSuspicious info = true) ∧
    (∀ check ∈ SECURITY_CHECKS, ∀ info : SecurityInfo,
       getScore info check.key = none →
       (getScore info check.key).getD check.max = check.max ∧
       scoreCheckFails info check = false) ∧
    (∀ info : SecurityInfo,
       info.attack = none → info.threat_type = none →
       info.dga_score = none → info.securerank2 = none → info.asn_score = none →
       info.prefix_score = none → info.rip_score = none →
       (info.found = none ∨ info.found = some false) →
       isSecurityInfoSuspicious info = true) := by
  refine ⟨?_, ?_, ?_⟩
  · intro info h
    have hany : SECURITY_BAD_KEYS.any
        (fun key => pyTruthyStr (getBadKey info key)) = true := by
      rcases h with h | h
      · exact List.any_eq_true.mpr ⟨"attack", by decide, by simp [getBadKey, h]⟩
      · exact List.any_eq_true.mpr ⟨"threat_type", by decide, by simp [getBadKey, h]⟩
    simp [isSecurityInfoSuspicious, hany]
  · intro check hc info h
    have hmax : check.threshold < check.max := by
      simp only [SECURITY_CHECKS, List.mem_cons, List.not_mem_nil, or_false] at hc
      rcases hc with h | h | h | h | h <;> subst h <;> decide
    refine ⟨by simp [h], ?_⟩
    simp [scoreCheckFails, h]
    omega
  · intro info hatt hthr h1 h2 h3 h4 h5 hfound
    have hf : info.found.getD false = false := by
      rcases hfound with h | h <;> simp [h]
    simp [isSecurityInfoSuspicious, hf]

/-- Witness for C5: part 1 at a result with attack set, part 2 at the securerank2
entry of a result with the key absent, part 3 at the all-absent result. -/
theorem missingFieldsDefaultSuspicion_witness :
    isSecurityInfoSuspicious
      { exSecBoundary with dga_score := none, attack := some "ransomware" } = true ∧
    ((getScore exSecEmpty "securerank2").getD 100 = 100 ∧
      scoreCheckFails exSecEmpty (SecurityCheck.mk "securerank2" (-100) 100 (-10)) = false) ∧
    isSecurityInfoSuspicious exSecEmpty = true :=
  ⟨missingFieldsDefaultSuspicion.1 _ (Or.inl (by decide)),
   missingFieldsDefaultSuspicion.2.1 (SecurityCheck.mk "securerank2" (-100) 100 (-10))
     (by decide) exSecEmpty (by decide),
   missingFieldsDefaultSuspicion.2.2 exSecEmpty (by decide) (by decide) (by decide)
     (by decide) (by decide) (by decide) (by decide) (Or.inl (by decide))⟩

/-- C6: the stage-2 selection predicate holds exactly when the categorization is
suspicious per the categorization classifier (status -1, or non-empty
security_categories, or a content category in the fixed suspicious list) or the
categorization is empty/unknown (status 0 with both category lists empty); in
particular the status-0 empty categorization is selected for a security lookup
even though its stage-1 suspicious flag is false. -/
theorem stage2SelectionIff :
    (∀ (d : String) (c : CategoryInfo),
       shouldGetSecurityInfo d c = true ↔
         ((c.status = -1 ∨ c.security_categories ≠ [] ∨
           ∃ cat ∈ c.content_categories, cat ∈ SUSPICIOUS_CATEGORIES) ∨
          (c.status = 0 ∧ c.content_categories = [] ∧ c.security_categories = []))) ∧
    (shouldGetSecurityInfo "unknown.example"
        (CategoryInfo.mk 0 [] [] none) = true ∧
     isCategoryInfoSuspicious (CategoryInfo.mk 0 [] [] none) = false) := by
  refine ⟨?_, by decide, by decide⟩
  intro d c
  simp [shouldGetSecurityInfo, isCategoryInfoSuspicious, List.any_eq_true,
    List.length_eq_zero, Bool.or_eq_true, Bool.and_eq_true]
  generalize (∃ x ∈ c.content_categories, x ∈ SUSPICIOUS_CATEGORIES) = p
  tauto

/-- Witness for C6: the empty status-0 categorization is selected, via the reverse
direction of the characterization. -/
theorem stage2SelectionIff_witness :
    shouldGetSecurityInfo "unknown.example" (CategoryInfo.mk 0 [] [] none) = true :=
  (stage2SelectionIff.1 "unknown.example" (CategoryInfo.mk 0 [] [] none)).mpr
    (Or.inr ⟨rfl, rfl, rfl⟩)

/-- C7: a domain matched by the whitelist collaborator is never in the
categorization call argument (stage1Iocs), never in the security call argument
(stage2Iocs), and never a key of the returned mapping, whatever the provider
would answer for it. -/
theorem whitelistedDomainExcluded
    (whitelist : String → Bool) (catOf : String → CategoryInfo)
    (secOf : String → SecurityInfo) (all_iocs : List String) (d : String)
    (hw : whitelist d = true) :
    d ∉ stage1Iocs whitelist all_iocs ∧
    d ∉ stage2Iocs whitelist catOf all_iocs ∧
    ∀ rec : ThreatRecord, (d, rec) ∉ lookupIocs whitelist catOf secOf all_iocs := by
  have h1 : d ∉ stage1Iocs whitelist all_iocs := by
    intro hmem
    have := (List.mem_filter.mp hmem).2
    simp [hw] at this
  have h2 : d ∉ stage2Iocs whitelist catOf all_iocs := by
    intro hmem
    exact h1 (List.mem_filter.mp hmem).1
  refine ⟨h1, h2, ?_⟩
  intro rec hmem
  rcases List.mem_map.mp hmem with ⟨e, he, heq⟩
  have hde : d = e := ((Prod.mk.injEq _ _ _ _).mp heq.symm).1
  subst hde
  exact h2 (List.mem_filter.mp he).1

/-- Witness for C7 at a concrete whitelist matching white.com and a two-domain
input list. -/
theorem whitelistedDomainExcluded_witness :
    "white.com" ∉ stage1Iocs exWhitelistWhite ["white.com", "evil.com"] ∧
    "white.com" ∉ stage2Iocs exWhitelistWhite exCatOf ["white.com", "evil.com"] ∧
    ∀ rec : ThreatRecord,
      ("white.com", rec) ∉ lookupIocs exWhitelistWhite exCatOf exSecOf
        ["white.com", "evil.com"] :=
  whitelistedDomainExcluded exWhitelistWhite exCatOf exSecOf
    ["white.com", "evil.com"] "white.com" (by decide)

/-- C8: in the trim operation a present positive dga_score is negated, a present
non-positive dga_score is unchanged, and an absent dga_score stays absent in the
trimmed output. -/
theorem trimDgaSignCorrection (info : SecurityInfo) (v : Int) :
    (info.dga_score = some v → 0 < v →
      (trimSecurityResult info).dga_score = some (-v)) ∧
    (info.dga_score = some v → v ≤ 0 →
      (trimSecurityResult info).dga_score = some v) ∧
    (info.dga_score = none → (trimSecurityResult info).dga_score = none) := by
  refine ⟨?_, ?_, ?_⟩
  · intro h hpos
    simp [trimSecurityResult, h, hpos]
  · intro h hnonpos
    have : ¬ (v > 0) := by omega
    simp [trimSecurityResult, h, this]
  · intro h
    simp [trimSecurityResult, h]

/-- Witness for C8: dga_score +80 becomes -80, -70 stays -70, and the all-absent
result keeps dga_score absent. -/
theorem trimDgaSignCorrection_witness :
    (trimSecurityResult (exSecOf "evil.com")).dga_score = some (-(80 : Int)) ∧
    (trimSecurityResult exSecBoundary).dga_score = some (-70 : Int) ∧
    (trimSecurityResult exSecEmpty).dga_score = none :=
  ⟨(trimDgaSignCorrection (exSecOf "evil.com") 80).1 (by decide) (by decide),
   (trimDgaSignCorrection exSecBoundary (-70)).2.1 (by decide) (by decide),
   (trimDgaSignCorrection exSecEmpty 0).2.2 (by decide)⟩

/-- C9: trimming is idempotent; in particular the sign-correction step never
double-negates, since a trimmed dga_score is never positive. -/
theorem trimIdempotent (info : SecurityInfo) :
    trimSecurityResult (trimSecurityResult info) = trimSecurityResult info := by
  rcases hd : info.dga_score with _ | v
  · simp [trimSecurityResult, hd]
  · by_cases hv : v > 0
    · have h1 : ¬ (-1 * v > 0) := by omega
      have h2 : ¬ (v < 0) := by omega
      simp [trimSecurityResult, hd, hv, h1, h2]
    · simp [trimSecurityResult, hd, hv]

/-- C10: every emitted record whose trimmed security record carries a dga_score
carries a non-positive one, for every possible raw provider value. -/
theorem emittedDgaNonpositive
    (whitelist : String → Bool) (catOf : String → CategoryInfo)
    (secOf : String → SecurityInfo) (all_iocs : List String)
    (d : String) (rec : ThreatRecord) (v : Int)
    (hmem : (d, rec) ∈ lookupIocs whitelist catOf secOf all_iocs)
    (hdga : rec.security.dga_score = some v) : v ≤ 0 := by
  rcases List.mem_map.mp hmem with ⟨e, he, heq⟩
  obtain ⟨hde, hrec⟩ := (Prod.mk.injEq _ _ _ _).mp heq.symm
  subst hde
  have hsec : rec.security = trimSecurityResult (attachSecuritySuspicious secOf d) := by
    rw [hrec]
  exact trim_dga_nonpos _ v (by rw [← hsec]; exact hdga)

/-- Witness for C10 at a concrete run emitting a record with dga_score -80. -/
theorem emittedDgaNonpositive_witness :
    (("evil.com", exRecord "evil.com") ∈
      lookupIocs exWhitelistNone exCatOf exSecOf ["evil.com"]) ∧
    (exRecord "evil.com").security.dga_score = some (-(80 : Int)) ∧
    (-(80 : Int)) ≤ 0 :=
  ⟨by decide, by decide,
   emittedDgaNonpositive exWhitelistNone exCatOf exSecOf ["evil.com"] "evil.com"
     (exRecord "evil.com") (-80) (by decide) (by decide)⟩

/-- C2 counterexample: a concrete run emits a record whose stored trimmed security
record does not contain the suspicious key at all (the trim step drops it). -/
theorem trimmedSecurityLacksSuspicious_cex :
    (("evil.com", exRecord "evil.com") ∈
      lookupIocs exWhitelistNone exCatOf exSecOf ["evil.com"]) ∧
    (exRecord "evil.com").security.suspicious.isSome = false :=
  ⟨by decide, by decide⟩

/-- C2 amended: for every emitted record, the stored trimmed security record keeps
the scores present in the raw result, the bad-indicator keys, and a definite found
value, drops every other provider field, and does NOT contain the suspicious key
(which the trim step drops after it was attached to the raw dict). -/
theorem trimmedSecurityShape
    (whitelist : String → Bool) (catOf : String → CategoryInfo)
    (secOf : String → SecurityInfo) (all_iocs : List String)
    (d : String) (rec : ThreatRecord)
    (hmem : (d, rec) ∈ lookupIocs whitelist catOf secOf all_iocs) :
    rec.security.suspicious = none ∧
    rec.security.found = some ((secOf d).found.getD false) ∧
    rec.security.attack = (secOf d).attack ∧
    rec.security.threat_type = (secOf d).threat_type ∧
    rec.security.securerank2 = (secOf d).securerank2 ∧
    rec.security.asn_score = (secOf d).asn_score ∧
    rec.security.prefix_score = (secOf d).prefix_score ∧
    rec.security.rip_score = (secOf d).rip_score ∧
    rec.security.dga_score.isSome = (secOf d).dga_score.isSome ∧
    rec.security.extra = [] := by
  rcases List.mem_map.mp hmem with ⟨e, he, heq⟩
  obtain ⟨hde, hrec⟩ := (Prod.mk.injEq _ _ _ _).mp heq.symm
  subst hde
  have hsec : rec.security = trimSecurityResult (attachSecuritySuspicious secOf d) := by
    rw [hrec]
  rw [hsec]
  rcases hdd : (secOf d).dga_score with _ | v
  · simp [trimSecurityResult, attachSecuritySuspicious, hdd]
  · by_cases hv : v > 0 <;>
      simp [trimSecurityResult, attachSecuritySuspicious, hdd, hv]

/-- Witness for C2 amended at the concrete run. -/
theorem trimmedSecurityShape_witness :
    (exRecord "evil.com").security.suspicious = none ∧
    (exRecord "evil.com").security.found = some ((exSecOf "evil.com").found.getD false) :=
  ⟨(trimmedSecurityShape exWhitelistNone exCatOf exSecOf ["evil.com"] "evil.com"
      (exRecord "evil.com") (by decide)).1,
   (trimmedSecurityShape exWhitelistNone exCatOf exSecOf ["evil.com"] "evil.com"
      (exRecord "evil.com") (by decide)).2.1⟩

/-- C3 counterexample: a concrete run emits a record for the domain "a b" whose
link embeds the domain verbatim, which differs from the percent-safe-encoded link
the spec describes (the space would read %20 there). -/
theorem linkNotPercentEncoded_cex :
    (("a b", exRecord "a b") ∈
      lookupIocs exWhitelistNone exCatOf exSecOf ["a b"]) ∧
    (exRecord "a b").link ≠ specThreatLink "a b" :=
  ⟨by decide, by decide⟩

/-- C3 amended: every emitted record carries the link built from the template with
the domain embedded verbatim (its UTF-8 bytes, with unencodable sequences ignored),
with no percent encoding applied. -/
theorem emittedLinkRawDomain
    (whitelist : String → Bool) (catOf : String → CategoryInfo)
    (secOf : String → SecurityInfo) (all_iocs : List String)
    (d : String) (rec : ThreatRecord)
    (hmem : (d, rec) ∈ lookupIocs whitelist catOf secOf all_iocs) :
    rec.link = opendnsLink d ∧
    opendnsLink d = "https://investigate.opendns.com/domain-view/name/" ++ d ++ "/view" := by
  rcases List.mem_map.mp hmem with ⟨e, he, heq⟩
  obtain ⟨hde, hrec⟩ := (Prod.mk.injEq _ _ _ _).mp heq.symm
  subst hde
  exact ⟨by rw [hrec], rfl⟩

/-- Witness for C3 amended at the concrete run. -/
theorem emittedLinkRawDomain_witness :
    (exRecord "evil.com").link = opendnsLink "evil.com" :=
  (emittedLinkRawDomain exWhitelistNone exCatOf exSecOf ["evil.com"] "evil.com"
    (exRecord "evil.com") (by decide)).1
